import Mathlib

/-!
Shallow embedding of `script.py` from the `nym_auto_updater` repository.

Pure string-processing helpers (`parse_version`, `is_newer_version`, the
`Packets sent [total]` log-line extraction and `convert_to_number`) are
translated into executable Lean functions.  Python exceptions are modelled
with `Option`/`Except`.  The orchestration in `main`/`update_binary`, whose
external collaborators (GitHub API, `wget`, `sudo service`, `systemctl`,
`journalctl`) are out of reach of a pure embedding, is modelled as a pure
function of an environment record that fixes the results of those external
calls, mirroring the control flow of the source branch by branch.
-/

namespace NymAutoUpdater

/-- Membership in the character class `[\d\.]` used by the packets pattern. -/
def isNumChar (c : Char) : Bool := c.isDigit || c == '.'

/-- Digit list to its decimal value, as the Python `int` of a digit string. -/
def digitsToNat (l : List Char) : Nat :=
  l.foldl (fun n c => n * 10 + (c.toNat - '0'.toNat)) 0

/-- The literal part `nym-binaries-v` of the pattern
`nym-binaries-v(\d+)\.(\d+)` in `parse_version` (script.py:29). -/
def versionLit : List Char := "nym-binaries-v".data

/-- Attempt the pattern `nym-binaries-v(\d+)\.(\d+)` anchored at the start of
`l`: the literal, then a maximal nonempty digit run (greedy `(\d+)` is
followed by `\.`, which no digit matches, so no backtracking can occur),
then `.`, then a maximal nonempty digit run. -/
def versionHere (l : List Char) : Option (Nat × Nat) :=
  if versionLit.isPrefixOf l then
    let rest := l.drop versionLit.length
    let maj := rest.takeWhile Char.isDigit
    if maj = [] then none
    else
      match rest.dropWhile Char.isDigit with
      | '.' :: rest2 =>
        let minr := rest2.takeWhile Char.isDigit
        if minr = [] then none
        else some (digitsToNat maj, digitsToNat minr)
      | _ => none
  else none

/-- Model of `re.search` of `nym-binaries-v(\d+)\.(\d+)` over the character list:
try every start offset left to right. -/
def versionSearch : List Char → Option (Nat × Nat)
  | [] => none
  | c :: cs =>
    match versionHere (c :: cs) with
    | some r => some r
    | none => versionSearch cs

/-- Model of `parse_version` (script.py:24-33): extract `(major, minor)` from a tag;
`none` models the `ValueError` raised when the pattern does not match. -/
def parse_version (tag : String) : Option (Nat × Nat) :=
  versionSearch tag.data

/-- The Python comparison `>` on two `(major, minor)` int pairs: lexicographic. -/
def tupleGt (a b : Nat × Nat) : Bool :=
  decide (b.1 < a.1 ∨ (b.1 = a.1 ∧ b.2 < a.2))

/-- Model of `is_newer_version` (script.py:35-39).  `Except.error t` models the
`ValueError` of `parse_version` escaping, carrying the offending tag;
Python evaluates `parse_version(latest)` before `parse_version(last)`. -/
def is_newer_version (latest last : String) : Except String Bool :=
  if last = "" then Except.ok true
  else
    match parse_version latest with
    | none => Except.error latest
    | some a =>
      match parse_version last with
      | none => Except.error last
      | some b => Except.ok (tupleGt a b)

/-- The literal part `Packets sent [total]` of the packets pattern
`Packets sent \[total\].*?([\d\.]+)([MK]?)` (script.py:98-100). -/
def packetsLit : List Char := "Packets sent [total]".data

/-- Drop characters through the first occurrence of `packetsLit`, returning
what follows it; `none` when the literal does not occur. -/
def dropAfterPacketsLit : List Char → Option (List Char)
  | [] => none
  | c :: cs =>
    if packetsLit.isPrefixOf (c :: cs) then some ((c :: cs).drop packetsLit.length)
    else dropAfterPacketsLit cs

/-- Skip to the first `[\d\.]` character (the lazy `.*?` consumes as little
as possible), returning the list from that character on. -/
def skipToNumChar : List Char → Option (List Char)
  | [] => none
  | c :: cs => if isNumChar c then some (c :: cs) else skipToNumChar cs

/-- Model of `pattern.search(line)` for `Packets sent \[total\].*?([\d\.]+)([MK]?)`
on a single journal line (no interior newline): the groups
`(num_str, suffix)` of the leftmost match, or `none` when no match.  The
match must start at the first occurrence of the literal (an occurrence with
no `[\d\.]` character anywhere after it leaves none for later occurrences
either), the lazy gap ends at the first `[\d\.]` character after the
literal, `([\d\.]+)` takes the maximal run from there, and `([MK]?)` takes
one following `M` or `K` if present. -/
def patternSearch (line : String) : Option (String × String) :=
  match dropAfterPacketsLit line.data with
  | none => none
  | some rest =>
    match skipToNumChar rest with
    | none => none
    | some l =>
      let num := l.takeWhile isNumChar
      let suffix : String :=
        match l.dropWhile isNumChar with
        | 'M' :: _ => "M"
        | 'K' :: _ => "K"
        | _ => ""
      some (⟨num⟩, suffix)

/-- The digits after the decimal point of a `[\d\.]+` string: what follows
the dot that ends the leading digit run, `[]` when there is no dot. -/
def fracDigits (l : List Char) : List Char :=
  match l.dropWhile Char.isDigit with
  | '.' :: fs => fs
  | _ => []

/-- Model of the Python `float(s)` call restricted to strings over `[\d\.]` (all that the
capture group can produce): valid when there is at least one digit and at
most one dot; the value is exact here, modelled in `ℚ` (every input these
claims evaluate is integer-valued, where the Python binary float is exact).
`none` models the `ValueError` raised otherwise (e.g. on `1.2.3`, `...`). -/
def pyFloat (s : String) : Option ℚ :=
  if s.data.all isNumChar && s.data.any Char.isDigit && decide (s.data.count '.' ≤ 1) then
    some ((digitsToNat (s.data.takeWhile Char.isDigit) : ℚ) +
      (digitsToNat (fracDigits s.data) : ℚ) / (10 : ℚ) ^ (fracDigits s.data).length)
  else none

/-- Model of `convert_to_number` (script.py:102-108): `float(s)` scaled by the unit
suffix, `M` by 10⁶ and `K` by 10³; `none` models the `ValueError` of
`float`. -/
def convert_to_number (s suffix : String) : Option ℚ :=
  match pyFloat s with
  | none => none
  | some val =>
    some (if suffix = "M" then val * 1000000 else if suffix = "K" then val * 1000 else val)

/-- One iteration of the `reader` loop (script.py:121-131) on one line,
starting from the current shared `last_value`: a non-matching line leaves
the value unchanged; a matching line stores the converted value; a
`ValueError` in `convert_to_number` is uncaught and kills the reader thread
(`Except.error`). -/
def readerStep (last_value : ℚ) (line : String) : Except Unit ℚ :=
  match patternSearch line with
  | none => Except.ok last_value
  | some (num_str, suffix) =>
    match convert_to_number num_str suffix with
    | none => Except.error ()
    | some val => Except.ok val

/-- The `reader` task (script.py:121-131) consuming a finite list of stream
lines in order: the final shared `last_value`, or `Except.error` when an
uncaught `ValueError` terminates the thread (all later lines unprocessed). -/
def readerRun (init : ℚ) : List String → Except Unit ℚ
  | [] => Except.ok init
  | line :: rest =>
    match readerStep init line with
    | Except.error e => Except.error e
    | Except.ok v => readerRun v rest

/-- Whitespace in the sense of the Python `str.strip()` call, i.e. the
characters for which `str.isspace()` holds: tab through carriage return
(U+0009-U+000D), the separators U+001C-U+001F, space, next line U+0085,
no-break space U+00A0, ogham space mark U+1680, the Zs range
U+2000-U+200A, line separator U+2028, paragraph separator U+2029,
narrow no-break space U+202F, medium mathematical space U+205F and
ideographic space U+3000. -/
def isPyWhitespace (c : Char) : Bool :=
  (0x09 ≤ c.toNat && c.toNat ≤ 0x0D) || (0x1C ≤ c.toNat && c.toNat ≤ 0x1F) ||
  c.toNat == 0x20 || c.toNat == 0x85 || c.toNat == 0xA0 || c.toNat == 0x1680 ||
  (0x2000 ≤ c.toNat && c.toNat ≤ 0x200A) || c.toNat == 0x2028 || c.toNat == 0x2029 ||
  c.toNat == 0x202F || c.toNat == 0x205F || c.toNat == 0x3000

/-- Python `str.strip()`: drop leading and trailing whitespace. -/
def pyStrip (s : String) : String :=
  ⟨((s.data.dropWhile isPyWhitespace).reverse.dropWhile isPyWhitespace).reverse⟩

/-- Model of `read_last_release` (script.py:58-63).  The state file is modelled as
`Option String` (`none` = the file does not exist, which reads as `""`);
the content of an existing file is returned stripped. -/
def read_last_release (stateFile : Option String) : String :=
  match stateFile with
  | none => ""
  | some contents => pyStrip contents

/-- Model of `write_last_release` (script.py:65-68): overwrite the state file with
the tag, creating it if absent. -/
def write_last_release (tag : String) : Option String :=
  some tag

/-- Results of the external collaborators of one run (GitHub API, shutil,
wget, sudo service / systemctl, and the packets monitor), fixed up front so
that `main` becomes a pure function of them. -/
structure Env where
  /-- What `get_latest_binary_release_tag` returns (`""` = no stable release). -/
  latest_tag : String
  /-- The state file before the run (`none` = absent). -/
  stateFile : Option String
  /-- Whether `/home/nymnode/.nym` exists (script.py:75). -/
  nym_folder_exists : Bool
  /-- Whether `shutil.make_archive` raises (script.py:78). -/
  backup_raises : Bool
  /-- Whether the `wget` download with `check=True` succeeds (script.py:89). -/
  download_ok : Bool
  /-- Whether `os.path.isfile(new_binary_path)` holds (script.py:160). -/
  artifact_present : Bool
  /-- Whether `chmod +x` with `check=True` succeeds (script.py:164). -/
  chmod_ok : Bool
  /-- Return code 0 from `sudo service <name> stop` (script.py:167). -/
  stop_ok : Bool
  /-- Return code 0 from `sudo systemctl daemon-reload` (script.py:174). -/
  daemon_reload_ok : Bool
  /-- Return code 0 from `sudo service <name> start` (script.py:175). -/
  start_ok : Bool
  /-- What `monitor_packets` returns (script.py:178). -/
  monitor_live : Bool
  deriving DecidableEq

/-- The control-flow branch a run ends in, identified by the log line the
source emits there. -/
inductive Outcome where
  /-- Log line `"No stable release found to update."` (script.py:193). -/
  | noEligibleRelease
  /-- Log line `"No new release. Still at …"` (script.py:205). -/
  | upToDate
  /-- Log line `"Ignoring downgrade attempt: …"` (script.py:207). -/
  | downgradeRejected
  /-- The `except Exception` branch: `"Error: …"` then `sys.exit(1)`
  (script.py:208-210). -/
  | exceptionAbort
  /-- Log line `"File … does not exist."` then `sys.exit(1)` in `update_binary`
  (script.py:161-162); `SystemExit` is not an `Exception`, so the handler
  in `main` does not catch it. -/
  | missingArtifactAbort
  /-- Log line `"Could not stop … service."` (script.py:186). -/
  | stopFailed
  /-- Log line `"Error reloading daemon or starting service."` (script.py:184). -/
  | startFailed
  /-- Log line `"Service packets never started flowing after restart."`
  (script.py:180). -/
  | healthTimeout
  /-- Log line `"Service packets flowing correctly."` (script.py:182). -/
  | success
  deriving DecidableEq

/-- What one call of `update_binary` did. -/
structure UBResult where
  /-- Flag that `sys.exit(1)` was reached (`SystemExit`, uncaught — process exits). -/
  sysExit : Bool
  /-- An `Exception` propagates out (the `check=True` chmod failing). -/
  raised : Bool
  /-- Flag that `sudo service <name> stop` was invoked. -/
  stop_invoked : Bool
  /-- Flag that `sudo service <name> start` was invoked. -/
  start_invoked : Bool
  /-- The old binary was removed and the artifact renamed over it. -/
  binary_replaced : Bool
  /-- The branch taken. -/
  outcome : Outcome
  deriving DecidableEq

/-- Model of `update_binary` (script.py:156-186), branch by branch.  A non-zero
return code from stop, daemon-reload or start is only logged (none of those
`subprocess.run` calls passes `check=True`), after which the function
returns normally; `start` is not invoked when daemon-reload fails (the
short-circuiting `and`, script.py:174-175); the binary is replaced
(script.py:169-171) once stop succeeded, before reload/start are tried. -/
def update_binary (e : Env) : UBResult :=
  if !e.artifact_present then
    ⟨true, false, false, false, false, Outcome.missingArtifactAbort⟩
  else if !e.chmod_ok then
    ⟨false, true, false, false, false, Outcome.exceptionAbort⟩
  else if e.stop_ok then
    if e.daemon_reload_ok then
      if e.start_ok then
        if e.monitor_live then
          ⟨false, false, true, true, true, Outcome.success⟩
        else
          ⟨false, false, true, true, true, Outcome.healthTimeout⟩
      else ⟨false, false, true, true, true, Outcome.startFailed⟩
    else ⟨false, false, true, false, true, Outcome.startFailed⟩
  else ⟨false, false, true, false, false, Outcome.stopFailed⟩

/-- The observable result of one whole run of the script. -/
structure RunResult where
  /-- Process exit code (0 = clean `return` from `main`). -/
  exit_code : Nat
  /-- The state file after the run. -/
  stateFile1 : Option String
  /-- The `wget` download was invoked. -/
  download_invoked : Bool
  /-- Flag that `sudo service <name> stop` was invoked. -/
  stop_invoked : Bool
  /-- Flag that `sudo service <name> start` was invoked. -/
  start_invoked : Bool
  /-- The installed binary was replaced by the artifact. -/
  binary_replaced : Bool
  /-- The branch the run ended in. -/
  outcome : Outcome
  deriving DecidableEq

/-- Model of `main` (script.py:188-210), branch by branch.  `ValueError` from
`is_newer_version`, exceptions from `shutil.make_archive` and
`CalledProcessError` from the `check=True` subprocess calls are caught by
`except Exception` and turn into `sys.exit(1)` with the state file
untouched; `sys.exit(1)` inside `update_binary` also leaves it untouched.
Whenever `update_binary` returns normally — including after its stop,
reload or start failures and after a monitor timeout, which it only logs —
`main` continues to `write_last_release(latest_tag)` (script.py:203) and
returns cleanly, so the run exits 0 with the state file overwritten. -/
def main (e : Env) : RunResult :=
  if e.latest_tag = "" then
    ⟨0, e.stateFile, false, false, false, false, Outcome.noEligibleRelease⟩
  else
    match is_newer_version e.latest_tag (read_last_release e.stateFile) with
    | Except.error _ =>
      ⟨1, e.stateFile, false, false, false, false, Outcome.exceptionAbort⟩
    | Except.ok true =>
      if e.nym_folder_exists && e.backup_raises then
        ⟨1, e.stateFile, false, false, false, false, Outcome.exceptionAbort⟩
      else if !e.download_ok then
        ⟨1, e.stateFile, true, false, false, false, Outcome.exceptionAbort⟩
      else
        let ub := update_binary e
        if ub.sysExit then
          ⟨1, e.stateFile, true, ub.stop_invoked, ub.start_invoked,
            ub.binary_replaced, ub.outcome⟩
        else if ub.raised then
          ⟨1, e.stateFile, true, ub.stop_invoked, ub.start_invoked,
            ub.binary_replaced, Outcome.exceptionAbort⟩
        else
          ⟨0, write_last_release e.latest_tag, true, ub.stop_invoked,
            ub.start_invoked, ub.binary_replaced, ub.outcome⟩
    | Except.ok false =>
      if e.latest_tag = read_last_release e.stateFile then
        ⟨0, e.stateFile, false, false, false, false, Outcome.upToDate⟩
      else
        ⟨0, e.stateFile, false, false, false, false, Outcome.downgradeRejected⟩

example : parse_version "nym-binaries-v2025.13-emmental" = some (2025, 13) := by decide
example : parse_version "foo" = none := by decide
example : is_newer_version "nym-binaries-v1.1" "nym-binaries-v1.0" = Except.ok true := rfl
example : is_newer_version "anything" "" = Except.ok true := rfl
example : is_newer_version "foo" "foo" = Except.error "foo" := rfl
example : patternSearch "Packets sent [total] 42M" = some ("42", "M") := by decide
example : patternSearch "Packets sent [total] 0" = some ("0", "") := by decide
example : patternSearch "nothing here" = none := by decide
example : convert_to_number "1.2.3" "" = none := rfl
example : convert_to_number "..." "" = none := rfl
example : isPyWhitespace ' ' = true := by decide
example : pyStrip " nym-binaries-v1.0 " = "nym-binaries-v1.0" := by decide
example : read_last_release (some " nym-binaries-v1.0\n") = "nym-binaries-v1.0" := by decide

/-- Evaluation fact: `convert_to_number("42", "M")` is 42 000 000. -/
theorem convert_42M : convert_to_number "42" "M" = some 42000000 := by
  simp +decide only [convert_to_number, pyFloat]
  rw [show digitsToNat (List.takeWhile Char.isDigit ['4', '2']) = 42 from by decide]
  rw [show fracDigits ['4', '2'] = [] from by decide]
  norm_num [digitsToNat]

/-- Evaluation fact: `convert_to_number("0", "")` is 0. -/
theorem convert_0 : convert_to_number "0" "" = some 0 := by
  simp +decide only [convert_to_number, pyFloat]
  rw [show digitsToNat (List.takeWhile Char.isDigit ['0']) = 0 from by decide]
  rw [show fracDigits ['0'] = [] from by decide]
  norm_num [digitsToNat]

/-- Processing the line containing `42M` sets the shared counter to
42 000 000 whatever it held before. -/
theorem readerStep_42M (v : ℚ) :
    readerStep v "Packets sent [total] 42M" = Except.ok 42000000 := by
  have hp : patternSearch "Packets sent [total] 42M" = some ("42", "M") := by decide
  simp [readerStep, hp, convert_42M]

/-- Processing the line containing `0` sets the shared counter to 0
whatever it held before. -/
theorem readerStep_0 (v : ℚ) :
    readerStep v "Packets sent [total] 0" = Except.ok 0 := by
  have hp : patternSearch "Packets sent [total] 0" = some ("0", "") := by decide
  simp [readerStep, hp, convert_0]

/-- A tag that parses is not the empty string. -/
theorem parse_version_ne_of_some {x : String} {p : Nat × Nat}
    (h : parse_version x = some p) : ¬ x = "" := by
  intro he
  have h0 : parse_version "" = none := by decide
  rw [he, h0] at h
  exact Option.noConfusion h

/-- On a parseable pair of tags, `is_newer_version` returns the Python
tuple comparison of the two parses. -/
theorem is_newer_version_eq_tupleGt {a b : String} {pa pb : Nat × Nat}
    (ha : parse_version a = some pa) (hb : parse_version b = some pb) :
    is_newer_version a b = Except.ok (tupleGt pa pb) := by
  unfold is_newer_version
  rw [if_neg (parse_version_ne_of_some hb), ha, hb]

/-- Comparing a parseable tag with itself yields false. -/
theorem tupleGt_self (p : Nat × Nat) : tupleGt p p = false := by
  simp [tupleGt]

/-- C4: on identifiers from which a `(major, minor)` pair parses, the
comparison is a strict total order, lexicographic on `(major, minor)`:
`is_newer_version x x` is false, it is antisymmetric and transitive, and
`is_newer_version a b` holds exactly when `(major_a, minor_a)` is
lexicographically greater than `(major_b, minor_b)`. -/
theorem C4_strict_lex_order (a b c : String) (pa pb pc : Nat × Nat)
    (ha : parse_version a = some pa) (hb : parse_version b = some pb)
    (hc : parse_version c = some pc) :
    is_newer_version a a = Except.ok false ∧
    ¬(is_newer_version a b = Except.ok true ∧ is_newer_version b a = Except.ok true) ∧
    (is_newer_version a b = Except.ok true → is_newer_version b c = Except.ok true →
      is_newer_version a c = Except.ok true) ∧
    (is_newer_version a b = Except.ok true ↔
      (pb.1 < pa.1 ∨ (pb.1 = pa.1 ∧ pb.2 < pa.2))) := by
  have key : ∀ (x y : String) (px py : Nat × Nat),
      parse_version x = some px → parse_version y = some py →
      (is_newer_version x y = Except.ok true ↔
        (py.1 < px.1 ∨ (py.1 = px.1 ∧ py.2 < px.2))) := by
    intro x y px py hx hy
    rw [is_newer_version_eq_tupleGt hx hy]
    simp [tupleGt]
  refine ⟨?_, ?_, ?_, key a b pa pb ha hb⟩
  · rw [is_newer_version_eq_tupleGt ha ha, tupleGt_self]
  · rintro ⟨h1, h2⟩
    rw [key a b pa pb ha hb] at h1
    rw [key b a pb pa hb ha] at h2
    omega
  · intro h1 h2
    rw [key a b pa pb ha hb] at h1
    rw [key b c pb pc hb hc] at h2
    rw [key a c pa pc ha hc]
    omega

/-- Witness for C4 at the concrete parseable tags 2025.13, 2025.4, 2024.11. -/
theorem C4_strict_lex_order_witness :
    parse_version "nym-binaries-v2025.13-emmental" = some (2025, 13) ∧
    parse_version "nym-binaries-v2025.4" = some (2025, 4) ∧
    parse_version "nym-binaries-v2024.11" = some (2024, 11) ∧
    (is_newer_version "nym-binaries-v2025.13-emmental" "nym-binaries-v2025.13-emmental" =
        Except.ok false ∧
      ¬(is_newer_version "nym-binaries-v2025.13-emmental" "nym-binaries-v2025.4" =
            Except.ok true ∧
          is_newer_version "nym-binaries-v2025.4" "nym-binaries-v2025.13-emmental" =
            Except.ok true) ∧
      (is_newer_version "nym-binaries-v2025.13-emmental" "nym-binaries-v2025.4" =
            Except.ok true →
        is_newer_version "nym-binaries-v2025.4" "nym-binaries-v2024.11" = Except.ok true →
        is_newer_version "nym-binaries-v2025.13-emmental" "nym-binaries-v2024.11" =
          Except.ok true) ∧
      (is_newer_version "nym-binaries-v2025.13-emmental" "nym-binaries-v2025.4" =
          Except.ok true ↔
        ((2025, 4).1 < (2025, 13).1 ∨
          ((2025, 4).1 = (2025, 13).1 ∧ (2025, 4).2 < (2025, 13).2)))) :=
  ⟨by decide, by decide, by decide,
    C4_strict_lex_order "nym-binaries-v2025.13-emmental" "nym-binaries-v2025.4"
      "nym-binaries-v2024.11" (2025, 13) (2025, 4) (2024, 11)
      (by decide) (by decide) (by decide)⟩

/-- C8: when the baseline is the empty string (and an absent state file
reads as the empty string), every candidate — parseable or not — is
classified Newer, before any parse of the candidate is attempted. -/
theorem C8_empty_baseline_always_newer :
    (∀ candidate : String, is_newer_version candidate "" = Except.ok true) ∧
    read_last_release none = "" :=
  ⟨fun _ => rfl, rfl⟩

/-- C10: writing a tag with no leading or trailing whitespace to the state
store and reading it back returns exactly that tag (`write` stores the tag
verbatim, `read` only strips surrounding whitespace). -/
theorem C10_roundtrip (tag : String)
    (h1 : tag.data.head?.all (fun c => !isPyWhitespace c) = true)
    (h2 : tag.data.getLast?.all (fun c => !isPyWhitespace c) = true) :
    read_last_release (write_last_release tag) = tag := by
  show pyStrip tag = tag
  have d1 : tag.data.dropWhile isPyWhitespace = tag.data := by
    cases hd : tag.data with
    | nil => rfl
    | cons a as =>
      rw [hd] at h1
      simp [Option.all] at h1
      simp [List.dropWhile_cons, h1]
  have d2 : tag.data.reverse.dropWhile isPyWhitespace = tag.data.reverse := by
    cases hd : tag.data.reverse with
    | nil => rfl
    | cons a as =>
      have hl : tag.data.getLast? = some a := by
        rw [← List.head?_reverse, hd]
        rfl
      rw [hl] at h2
      simp [Option.all] at h2
      simp [List.dropWhile_cons, h2]
  unfold pyStrip
  rw [d1, d2, List.reverse_reverse]

/-- Witness for C10 at a concrete whitespace-free tag. -/
theorem C10_roundtrip_witness :
    "nym-binaries-v2025.13".data.head?.all (fun c => !isPyWhitespace c) = true ∧
    "nym-binaries-v2025.13".data.getLast?.all (fun c => !isPyWhitespace c) = true ∧
    read_last_release (write_last_release "nym-binaries-v2025.13") = "nym-binaries-v2025.13" :=
  ⟨by decide, by decide, C10_roundtrip "nym-binaries-v2025.13" (by decide) (by decide)⟩

/-- C9: when the swap and restart complete but the health monitor reports
timeout, the run ends in the HealthTimeout branch and the state file is
nevertheless overwritten with the candidate identifier (and the run exits
0): `main` writes the state whenever `update_binary` returns normally. -/
theorem C9_health_timeout_still_updates_state (latest : String) (st : Option String)
    (nymF backupR : Bool) (h0 : ¬ latest = "")
    (h1 : is_newer_version latest (read_last_release st) = Except.ok true)
    (h2 : (nymF && backupR) = false) :
    main ⟨latest, st, nymF, backupR, true, true, true, true, true, true, false⟩ =
      ⟨0, write_last_release latest, true, true, true, true, Outcome.healthTimeout⟩ := by
  simp [main, update_binary, h0, h1, h2]

/-- Witness for C9: baseline 1.0, candidate 1.1, everything succeeds except
the packets monitor. -/
theorem C9_health_timeout_still_updates_state_witness :
    ¬ "nym-binaries-v1.1" = "" ∧
    is_newer_version "nym-binaries-v1.1" (read_last_release (some "nym-binaries-v1.0")) =
      Except.ok true ∧
    (true && false) = false ∧
    main ⟨"nym-binaries-v1.1", some "nym-binaries-v1.0", true, false, true, true, true,
        true, true, true, false⟩ =
      ⟨0, write_last_release "nym-binaries-v1.1", true, true, true, true,
        Outcome.healthTimeout⟩ :=
  ⟨by decide, rfl, rfl,
    C9_health_timeout_still_updates_state "nym-binaries-v1.1" (some "nym-binaries-v1.0")
      true false (by decide) rfl rfl⟩

/-- C1: evidence against the claim.  When stopping the service fails, and
likewise in scenario C where the start fails after the swap,
`update_binary` only logs the failure and returns, and `main` then calls
`write_last_release(latest_tag)` unconditionally (script.py:203): the run
ends with the state file holding the candidate `nym-binaries-v1.1`, so
`read_last_release` after the run differs from its value before the run
(`nym-binaries-v1.0`), contradicting the claimed unchanged persisted
state. -/
theorem C1_state_overwritten_on_stop_or_start_failure :
    main ⟨"nym-binaries-v1.1", some "nym-binaries-v1.0", true, false, true, true, true,
        true, true, false, true⟩ =
      ⟨0, some "nym-binaries-v1.1", true, true, true, true, Outcome.startFailed⟩ ∧
    read_last_release
      (main ⟨"nym-binaries-v1.1", some "nym-binaries-v1.0", true, false, true, true, true,
          true, true, false, true⟩).stateFile1 = "nym-binaries-v1.1" ∧
    main ⟨"nym-binaries-v1.1", some "nym-binaries-v1.0", true, false, true, true, true,
        false, true, true, true⟩ =
      ⟨0, some "nym-binaries-v1.1", true, true, false, false, Outcome.stopFailed⟩ ∧
    read_last_release
      (main ⟨"nym-binaries-v1.1", some "nym-binaries-v1.0", true, false, true, true, true,
          false, true, true, true⟩).stateFile1 = "nym-binaries-v1.1" ∧
    read_last_release (some "nym-binaries-v1.0") = "nym-binaries-v1.0" := by decide

/-- C3 counterexample: a run whose service stop fails (and one whose start
fails) ends with exit code 0, not a non-zero code as claimed. -/
theorem C3_counterexample_stop_start_exit_zero :
    (main ⟨"nym-binaries-v1.1", some "nym-binaries-v1.0", true, false, true, true, true,
        false, true, true, true⟩).outcome = Outcome.stopFailed ∧
    (main ⟨"nym-binaries-v1.1", some "nym-binaries-v1.0", true, false, true, true, true,
        false, true, true, true⟩).exit_code = 0 ∧
    (main ⟨"nym-binaries-v1.1", some "nym-binaries-v1.0", true, false, true, true, true,
        true, true, false, true⟩).outcome = Outcome.startFailed ∧
    (main ⟨"nym-binaries-v1.1", some "nym-binaries-v1.0", true, false, true, true, true,
        true, true, false, true⟩).exit_code = 0 := by decide

/-- C3 amended: the exit code is 0 on success and no-op runs, and it is
non-zero exactly when the run aborts through an exception (`except` branch:
parse error, backup exception, download or chmod failure) or through the
missing-artifact `sys.exit(1)`; runs ending in StopFailed or StartFailed
(and HealthTimeout) exit 0. -/
theorem C3_exit_code_characterization (e : Env) :
    ((main e).exit_code ≠ 0 ↔
      ((main e).outcome = Outcome.exceptionAbort ∨
        (main e).outcome = Outcome.missingArtifactAbort)) ∧
    ((main e).outcome = Outcome.stopFailed → (main e).exit_code = 0) ∧
    ((main e).outcome = Outcome.startFailed → (main e).exit_code = 0) := by
  rcases e with ⟨lt, st, nf, br, dl, ap, ch, so, dr, sa, ml⟩
  by_cases h0 : lt = ""
  · simp [main, h0]
  · rcases hn : is_newer_version lt (read_last_release st) with m | b
    · simp [main, h0, hn]
    · cases b
      · by_cases he : lt = read_last_release st
        · subst he
          simp [main, h0, hn]
        · simp [main, h0, hn, he]
      · cases nf <;> cases br <;> cases dl <;> cases ap <;> cases ch <;> cases so <;>
          cases dr <;> cases sa <;> cases ml <;> simp [main, update_binary, h0, hn]

/-- C5 counterexample: with the `.nym` folder present and
`shutil.make_archive` raising, the run aborts with exit code 1 in the
`except` branch before any download, service action or state change — the
backup failure does abort the update, contradicting the claim. -/
theorem C5_counterexample_backup_exception_aborts :
    main ⟨"nym-binaries-v1.1", some "nym-binaries-v1.0", true, true, true, true, true,
        true, true, true, true⟩ =
      ⟨1, some "nym-binaries-v1.0", false, false, false, false, Outcome.exceptionAbort⟩ := by
  decide

/-- C5 amended: when the `.nym` folder is absent the backup is skipped with
a warning and the update proceeds to the download; but when creating the
backup archive raises, the exception propagates to the `except` handler and
the run aborts with exit code 1 before download, swap, restart or state
update. -/
theorem C5_backup_behavior (latest : String) (st : Option String)
    (dl ap ch so dr sa ml br : Bool) (h0 : ¬ latest = "")
    (h1 : is_newer_version latest (read_last_release st) = Except.ok true) :
    main ⟨latest, st, true, true, dl, ap, ch, so, dr, sa, ml⟩ =
      ⟨1, st, false, false, false, false, Outcome.exceptionAbort⟩ ∧
    (main ⟨latest, st, false, br, dl, ap, ch, so, dr, sa, ml⟩).download_invoked = true := by
  constructor
  · simp [main, h0, h1]
  · cases dl <;> cases ap <;> cases ch <;> cases so <;> cases dr <;> cases sa <;>
      cases ml <;> simp [main, update_binary, h0, h1]

/-- Witness for C5 amended at concrete tags with all later steps succeeding. -/
theorem C5_backup_behavior_witness :
    ¬ "nym-binaries-v1.1" = "" ∧
    is_newer_version "nym-binaries-v1.1" (read_last_release (some "nym-binaries-v1.0")) =
      Except.ok true ∧
    (main ⟨"nym-binaries-v1.1", some "nym-binaries-v1.0", true, true, true, true, true,
          true, true, true, true⟩ =
        ⟨1, some "nym-binaries-v1.0", false, false, false, false, Outcome.exceptionAbort⟩ ∧
      (main ⟨"nym-binaries-v1.1", some "nym-binaries-v1.0", false, false, true, true, true,
          true, true, true, true⟩).download_invoked = true) :=
  ⟨by decide, rfl,
    C5_backup_behavior "nym-binaries-v1.1" (some "nym-binaries-v1.0")
      true true true true true true true false (by decide) rfl⟩

/-- C7 counterexample: with identical non-empty candidate and baseline
`"foo"`, which does not match the version pattern, the run does not end
UpToDate: `is_newer_version` is evaluated before the equality check, its
`ValueError` is caught, and the run aborts with exit code 1. -/
theorem C7_counterexample_identical_unparseable_aborts :
    main ⟨"foo", some "foo", true, false, true, true, true, true, true, true, true⟩ =
      ⟨1, some "foo", false, false, false, false, Outcome.exceptionAbort⟩ ∧
    ¬(main ⟨"foo", some "foo", true, false, true, true, true, true, true, true,
        true⟩).outcome = Outcome.upToDate := by decide

/-- C7 amended: with identical candidate and persisted baseline, a
parseable identifier gives outcome UpToDate with no download, no service
stop/start, no binary swap, unchanged state and exit code 0; but an
identifier that does not match the version pattern makes the run abort
with a parse error (exit code 1) instead of UpToDate. -/
theorem C7_identical_identifiers (tag : String) (st : Option String)
    (nf br dl ap ch so dr sa ml : Bool) (hst : read_last_release st = tag) :
    (∀ p : Nat × Nat, parse_version tag = some p →
      main ⟨tag, st, nf, br, dl, ap, ch, so, dr, sa, ml⟩ =
        ⟨0, st, false, false, false, false, Outcome.upToDate⟩) ∧
    (¬ tag = "" → parse_version tag = none →
      main ⟨tag, st, nf, br, dl, ap, ch, so, dr, sa, ml⟩ =
        ⟨1, st, false, false, false, false, Outcome.exceptionAbort⟩) := by
  constructor
  · intro p hp
    have hne := parse_version_ne_of_some hp
    have hcmp : is_newer_version tag tag = Except.ok false := by
      rw [is_newer_version_eq_tupleGt hp hp, tupleGt_self]
    simp [main, hne, hst, hcmp]
  · intro hne hp
    have hcmp : is_newer_version tag tag = Except.error tag := by
      unfold is_newer_version
      rw [if_neg hne, hp]
    simp [main, hne, hst, hcmp]

/-- Witness for C7 amended: identical parseable baseline and candidate
give UpToDate with no side effects. -/
theorem C7_identical_identifiers_witness :
    read_last_release (some "nym-binaries-v1.0") = "nym-binaries-v1.0" ∧
    parse_version "nym-binaries-v1.0" = some (1, 0) ∧
    main ⟨"nym-binaries-v1.0", some "nym-binaries-v1.0", true, false, true, true, true,
        true, true, true, true⟩ =
      ⟨0, some "nym-binaries-v1.0", false, false, false, false, Outcome.upToDate⟩ :=
  ⟨rfl, by decide,
    (C7_identical_identifiers "nym-binaries-v1.0" (some "nym-binaries-v1.0")
      true false true true true true true true true rfl).1 (1, 0) (by decide)⟩

/-- C2 counterexample: after the `42M` line and then the `0` line the
shared counter is 0, not 42 000 000 — the reader stores the most recent
value unconditionally, so it does not remain at the higher value. -/
theorem C2_counterexample_counter_drops :
    readerRun 0 ["Packets sent [total] 42M", "Packets sent [total] 0"] = Except.ok 0 ∧
    (0 : ℚ) ≠ 42000000 := by
  refine ⟨?_, by norm_num⟩
  have h1 := readerStep_42M 0
  have h2 := readerStep_0 42000000
  simp [readerRun, h1, h2]

/-- C2 amended: last-write-wins.  After the line containing `42M` the
shared liveness counter equals 42 000 000; after the following line
containing `0` it equals 0 (the lower value overwrites the higher one). -/
theorem C2_last_write_wins :
    readerRun 0 ["Packets sent [total] 42M"] = Except.ok 42000000 ∧
    readerRun 0 ["Packets sent [total] 42M", "Packets sent [total] 0"] = Except.ok 0 := by
  constructor
  · have h1 := readerStep_42M 0
    simp [readerRun, h1]
  · have h1 := readerStep_42M 0
    have h2 := readerStep_0 42000000
    simp [readerRun, h1, h2]

/-- C6 counterexample: the line `Packets sent [total] ...` matches the
pattern with captured numeric text `...`, `float` raises `ValueError`,
and — there being no exception handling in `reader` — the reader dies:
the following well-formed line is never processed. -/
theorem C6_counterexample_malformed_kills_reader :
    patternSearch "Packets sent [total] ..." = some ("...", "") ∧
    convert_to_number "..." "" = none ∧
    readerRun 0 ["Packets sent [total] ...", "Packets sent [total] 5"] =
      Except.error () := by
  refine ⟨by decide, rfl, ?_⟩
  have h : readerStep 0 "Packets sent [total] ..." = Except.error () := rfl
  simp [readerRun, h]

/-- C6 amended: a line whose captured numeric text is malformed makes
`convert_to_number` raise; the exception is uncaught in `reader`, so the
reader task terminates and no subsequent line is processed (the claimed
skip-and-continue behavior does not hold). -/
theorem C6_reader_crash_propagates (v : ℚ) (line : String) (rest : List String)
    (h : readerStep v line = Except.error ()) :
    readerRun v (line :: rest) = Except.error () := by
  simp [readerRun, h]

/-- Witness for C6 amended at the malformed dots line. -/
theorem C6_reader_crash_propagates_witness :
    readerStep 0 "Packets sent [total] ..." = Except.error () ∧
    readerRun 0 ["Packets sent [total] ...", "Packets sent [total] 5"] =
      Except.error () :=
  ⟨rfl, C6_reader_crash_propagates 0 "Packets sent [total] ..."
    ["Packets sent [total] 5"] rfl⟩

end NymAutoUpdater
